import Mathlib

/-!
Verification development for the `new_graphene` schema-definition library
(repository Zadigo/graphene, directory `src/new_graphene/`).

Each Python function that a claim depends on is translated into an executable
Lean definition ("shallow embedding").  Python exceptions are modelled with an
`Except PyError` result; Python `dict` is modelled as an association list with
insertion-ordered update semantics; Python object identity, where a claim
depends on it, is modelled with explicit allocation stamps threaded through a
state record.
-/

namespace NewGraphene

/-- Python exception kinds raised by the modelled code paths, plus `outOfFuel`
(a modelling artifact marking exhausted recursion fuel, never raised by any
theorem's evaluation) and `modelGap` (reference to data not supplied to the
model, likewise unreachable in the theorems below). -/
inductive PyError where
  | valueError
  | typeError
  | attributeError
  | outOfFuel
  | modelGap
  deriving DecidableEq, Repr

/-! ## Association lists with Python `dict` semantics

Python dictionaries preserve insertion order; assigning to an existing key
replaces the value in place (keeping the key's position) and assigning to a
fresh key appends it.  `listLookup` is `d[k]`-style lookup, `upsert` is a
single `d[k] = v` assignment, `dictUpdate` is `d.update(patch)`. -/

/-- First-match lookup in an association list (Python `d.get(k)`). -/
def listLookup {α : Type} : List (String × α) → String → Option α
  | [], _ => none
  | (k', v) :: rest, k => if k' = k then some v else listLookup rest k

/-- A single Python dict assignment `d[k] = v`: replace the first binding of
`k` in place, else append `(k, v)`. -/
def upsert {α : Type} : List (String × α) → String × α → List (String × α)
  | [], kv => [kv]
  | (k', v') :: rest, kv =>
      if k' = kv.1 then (k', kv.2) :: rest else (k', v') :: upsert rest kv

/-- Python `d.update(patch)`: assign every binding of `patch` into `d` in
order. -/
def dictUpdate {α : Type} (d patch : List (String × α)) : List (String × α) :=
  patch.foldl upsert d

theorem listLookup_upsert_same {α : Type} (d : List (String × α)) (k : String)
    (v : α) : listLookup (upsert d (k, v)) k = some v := by
  induction d with
  | nil => simp [upsert, listLookup]
  | cons hd tl ih =>
      by_cases hk : hd.1 = k
      · simp [upsert, listLookup, hk]
      · simp [upsert, listLookup, hk, ih]

theorem listLookup_upsert_other {α : Type} (d : List (String × α))
    (k k' : String) (v : α) (h : k' ≠ k) :
    listLookup (upsert d (k, v)) k' = listLookup d k' := by
  have hne : k ≠ k' := fun hh => h hh.symm
  induction d with
  | nil => simp [upsert, listLookup, hne]
  | cons hd tl ih =>
      obtain ⟨k0, v0⟩ := hd
      by_cases hk : k0 = k
      · simp [upsert, listLookup, hk, hne]
      · simp [upsert, listLookup, hk, ih]

theorem listLookup_eq_none_of_not_mem {α : Type} (l : List (String × α))
    (k : String) (h : k ∉ l.map Prod.fst) : listLookup l k = none := by
  induction l with
  | nil => simp [listLookup]
  | cons hd tl ih =>
      simp only [List.map_cons, List.mem_cons, not_or] at h
      have : hd.1 ≠ k := fun hh => h.1 hh.symm
      simp [listLookup, this, ih h.2]

/-! ## Metaclass interface-field merge (src/new_graphene/base.py 147-161)

In `BaseObjectType.__new__`, for an object type the working field set starts
from the type's own namespace (`filtered_fields = base_options.filter_fields(namespace)`);
then, for each interface declared in the `Meta` configuration block, the
interface's already-built fields are merged with
`filtered_fields.update(interface._meta.fields)`.  Because `dict.update`
overwrites existing keys with the patch's values, a same-named interface field
replaces the object type's own field descriptor.  Descriptors are modelled
polymorphically (`α` stands for the field-descriptor objects, compared by
identity tags in the theorems). -/

/-- The merged working field set of `BaseObjectType.__new__` for an object
type: own namespace fields first, then `filtered_fields.update(interface._meta.fields)`
for each declared interface, in declaration order. -/
def mergedInterfaceFields {α : Type} (own : List (String × α))
    (interfaceFields : List (List (String × α))) : List (String × α) :=
  interfaceFields.foldl dictUpdate own

theorem dictUpdate_lookup {α : Type} (patch : List (String × α)) :
    ∀ (d : List (String × α)) (k : String),
      (patch.map Prod.fst).Nodup →
      listLookup (dictUpdate d patch) k =
        match listLookup patch k with
        | some v => some v
        | none => listLookup d k := by
  induction patch with
  | nil => intro d k _; simp [dictUpdate, listLookup]
  | cons hd tl ih =>
      intro d k hnd
      simp only [List.map_cons, List.nodup_cons] at hnd
      have step : dictUpdate d (hd :: tl) = dictUpdate (upsert d hd) tl := by
        simp [dictUpdate]
      rw [step, ih (upsert d hd) k hnd.2]
      by_cases hk : hd.1 = k
      · subst hk
        have hnone : listLookup tl hd.1 = none :=
          listLookup_eq_none_of_not_mem tl hd.1 hnd.1
        rw [hnone]
        have hcons : listLookup (hd :: tl) hd.1 = some hd.2 := by
          simp [listLookup]
        rw [hcons]
        have := listLookup_upsert_same d hd.1 hd.2
        simpa using this
      · have hcons : listLookup (hd :: tl) k = listLookup tl k := by
          simp [listLookup, hk]
        rw [hcons]
        have := listLookup_upsert_other d hd.1 k hd.2 (fun hh => hk hh.symm)
        simp only [this]

/-! ## Built-in scalar `resolve_value` (src/new_graphene/fields/datatypes.py)

Runtime values flowing through `resolve_value` are modelled by `PyVal`.
Python floats are modelled as rationals: every literal used by the theorems
below is exactly representable, and the defect established for `Float` does
not depend on rounding (the function never returns the converted number at
all).  The Python builtins `int(...)` and `float(...)` are modelled on the
value kinds the scalars receive; numeric string literals are not modelled (no
theorem feeds a string to a numeric conversion), so the string branch conservatively
raises `ValueError` exactly as Python does for non-numeric strings. -/

/-- Runtime values seen by `resolve_value`: Python str/int/float/bool values,
`None`, and the `graphql.Undefined` sentinel. -/
inductive PyVal where
  | vstr (s : String)
  | vint (n : Int)
  | vfloat (q : Rat)
  | vbool (b : Bool)
  | vnone
  | vundefined
  deriving DecidableEq, Repr

/-- `MAX_INT` from datatypes.py line 14: the largest 32-bit signed integer. -/
def MAX_INT : Int := 2147483647

/-- `MIN_INT` from datatypes.py line 16: the smallest 32-bit signed integer. -/
def MIN_INT : Int := -2147483648

/-- Truncation toward zero, the behaviour of Python `int(...)` on a float. -/
def ratTrunc (q : Rat) : Int :=
  if q < 0 then -((-q).floor) else q.floor

/-- Python builtin `int(value)` on the modelled value kinds: ints unchanged,
floats truncated toward zero, bools to 0/1, non-numeric strings and the
remaining kinds raising `ValueError`/`TypeError` as Python does. -/
def pyIntFn : PyVal → Except PyError Int
  | .vint n => .ok n
  | .vfloat q => .ok (ratTrunc q)
  | .vbool b => .ok (if b then 1 else 0)
  | .vstr _ => .error .valueError
  | .vnone => .error .typeError
  | .vundefined => .error .typeError

/-- Python builtin `float(value)` on the modelled value kinds. -/
def pyFloatFn : PyVal → Except PyError Rat
  | .vint n => .ok n
  | .vfloat q => .ok q
  | .vbool b => .ok (if b then 1 else 0)
  | .vstr _ => .error .valueError
  | .vnone => .error .typeError
  | .vundefined => .error .typeError

/-- `Scalar.resolve_value` (datatypes.py 55-66): the identity. -/
def scalarResolveValue (v : PyVal) : PyVal := v

/-- `Integer.resolve_value` (datatypes.py 130-143): `int(value)`, falling back
to `int(float(value))` on `ValueError`, then the 32-bit range check returning
`Undefined` outside `[MIN_INT, MAX_INT]`. -/
def intResolveValue (v : PyVal) : Except PyError PyVal :=
  let check : Int → PyVal := fun n =>
    if MIN_INT ≤ n ∧ n ≤ MAX_INT then .vint n else .vundefined
  match pyIntFn v with
  | .ok n => .ok (check n)
  | .error .valueError =>
      match pyFloatFn v with
      | .ok q => .ok (check (ratTrunc q))
      | .error .valueError => .ok .vundefined
      | .error e => .error e
  | .error e => .error e

/-- `Float.resolve_value` (datatypes.py 202-207): the body is
`try: value = float(value) except ValueError: return Undefined` and then falls
off the end of the function, so the success path returns Python `None` — the
converted number is never returned. -/
def floatResolveValue (v : PyVal) : Except PyError PyVal :=
  match pyFloatFn v with
  | .ok _ => .ok .vnone
  | .error .valueError => .ok .vundefined
  | .error e => .error e

/-- Python `str(value)` on the modelled kinds (only the string and bool cases
feed the theorems; the numeric renderings follow Python's `str`). -/
def pyStrFn : PyVal → String
  | .vstr s => s
  | .vint n => toString n
  | .vfloat _ => ""
  | .vbool b => if b then "True" else "False"
  | .vnone => "None"
  | .vundefined => "Undefined"

/-- `String.resolve_value` (datatypes.py 227-231): booleans render as
`'true'`/`'false'`, everything else through `str(value)`. -/
def strResolveValue (v : PyVal) : PyVal :=
  match v with
  | .vbool b => .vstr (if b then "true" else "false")
  | _ => .vstr (pyStrFn v)

/-! ## Field-descriptor creation counter (src/new_graphene/fields/helpers.py 74-111)

`BaseField` declares the class attribute `creation_counter: int = 1`
(helpers.py line 74).  `BaseField.__init__` (lines 79-82) assigns only
`self.args`, `self.kwargs` and `self._arguments`; it never assigns
`creation_counter`, and no global counter is consulted, so every freshly
constructed descriptor observes the class-attribute value `1`.
(`BaseOptions.build_fields`, base.py line 84, later executes
`field_obj.creation_counter += 1` on the original namespace value, which
creates an instance attribute `2` on that one object after construction; the
counter observed at construction time is always `1`.)  The repository's own
test `tests/fields/test_field.py` asserts `instance.creation_counter > 1`
after `Field(String, ...)`, which the code cannot satisfy. -/

/-- The `creation_counter` observed on a descriptor right after
`BaseField.__init__` returns: the untouched class attribute. -/
def baseFieldInitCounter : Nat := 1

/-- The creation counters of `n` successively constructed field descriptors,
in construction order. -/
def constructedCounters (n : Nat) : List Nat :=
  List.replicate n baseFieldInitCounter

/-! ## Structural-wrapper equality (src/new_graphene/fields/structures.py 43-70,
src/new_graphene/fields/helpers.py 226-235)

`List.__eq__` and `NonNull.__eq__` evaluate
`all([isinstance(other, List), super().__eq__(other)])`; building the Python
list evaluates both elements eagerly, so `Structure.__eq__` →
`ImplicitField.__eq__` always runs.  `ImplicitField.__eq__` builds
`truth_array = [isinstance(other, ImplicitField), all([self.get_type() == other.get_type(), ...])]`,
again eagerly, so `self.get_type()` is always called.  No class in the live
hierarchy (`List`/`NonNull` → `Structure` → `ImplicitField` → `BaseField` →
`PrintingMixin`, nor the `Scalar` mix-ins) defines `get_type` — the method was
renamed to `_get_type` (helpers.py 240, datatypes.py 68; the retired draft
`src/new_graphene/datatypes.py` line 53 still has `get_type`) — so the
attribute access raises `AttributeError` before any comparison result is
produced. -/

/-- Instances of the implicit-field family as used in wrapper comparisons:
`List(T)`, `NonNull(T)` (inner type `T` recorded by a class tag) and a plain
mounted scalar instance such as `String()`. -/
inductive FieldInstance where
  | listI (inner : Nat)
  | nonNullI (inner : Nat)
  | scalarI (tag : Nat)
  deriving DecidableEq, Repr

/-- The call `self.get_type()` inside `ImplicitField.__eq__` (helpers.py 230):
no class of the live hierarchy defines `get_type`, so Python raises
`AttributeError`. -/
def callGetType (_x : FieldInstance) : Except PyError Nat :=
  .error .attributeError

/-- `ImplicitField.__eq__` (helpers.py 226-235): both elements of
`truth_array` are computed eagerly, so `self.get_type()` is evaluated (and
raises) before `any(truth_array)` could run. -/
def implicitFieldEq (a b : FieldInstance) : Except PyError Bool := do
  let inst : Bool := true
  let ta ← callGetType a
  let tb ← callGetType b
  pure (inst || (ta = tb : Bool))

/-- `List.__eq__` (structures.py 43-47): `all([isinstance(other, List),
super().__eq__(other)])` with eager element evaluation. -/
def listStructEq (a b : FieldInstance) : Except PyError Bool := do
  let isList : Bool := match b with | .listI _ => true | _ => false
  let sup ← implicitFieldEq a b
  pure (isList && sup)

/-- `NonNull.__eq__` (structures.py 66-70), same shape as `List.__eq__`. -/
def nonNullStructEq (a b : FieldInstance) : Except PyError Bool := do
  let isNonNull : Bool := match b with | .nonNullI _ => true | _ => false
  let sup ← implicitFieldEq a b
  pure (isNonNull && sup)

/-- Python `a == b` dispatch for the implicit-field family: the left operand's
class selects the `__eq__` implementation. -/
def fieldInstanceEq (a b : FieldInstance) : Except PyError Bool :=
  match a with
  | .listI _ => listStructEq a b
  | .nonNullI _ => nonNullStructEq a b
  | .scalarI _ => implicitFieldEq a b

/-! ## Argument translation (src/new_graphene/fields/arguments.py 80-122)

`Argument.translate_arguments(field_obj)` walks
`itertools.chain(field_obj.args.items(), field_obj.extra_args.items())` — the
two mappings concatenated in their own insertion orders, with no sorting —
and builds an `OrderedDict` of effective-name → `Argument`.  `Argument`
instances are Python objects mutated in place (`instance.name = default_name`),
so they are modelled in a store (`ArgStore`) addressed by index; a mapping
value `ArgValue.argRef i` is the Python situation of an `Argument` object in
the `args` dict, `ArgValue.implicitV` a mounted implicit instance such as
`String()`, `ArgValue.dynamicV` a `Dynamic`, `ArgValue.fieldV` a
`Field`/`InputField`, and `ArgValue.otherV` any other value (dropped silently,
matching the code: no branch assigns `instance`). -/

/-- The mutable state of an `Argument` object: its `name`, its underlying
type (as a class tag), `default_value`, `deprecation_reason`, and its
`creation_counter` (an ordinary readable attribute of `BaseField`). -/
structure ArgumentObj where
  name : Option String
  ftype : Nat
  defaultValue : Option String
  deprecationReason : Option String
  counter : Nat
  deriving DecidableEq, Repr

/-- The store of live `Argument` objects; `ArgValue.argRef i` points at
position `i`. -/
abbrev ArgStore := List ArgumentObj

/-- A value appearing in a field's `args`/`extra_args` mapping. -/
inductive ArgValue where
  | dynamicV (resolved : Option Nat)
  | implicitV (ftype : Nat) (counter : Nat)
  | fieldV (ftype : Nat)
  | argRef (i : Nat)
  | otherV
  deriving DecidableEq, Repr

/-- Python truthiness of `instance.name or key`: `None` and the empty string
fall back to `key`. -/
def pyOrName (n : Option String) (k : String) : String :=
  match n with
  | some s => if s.isEmpty then k else s
  | none => k

/-- Whether `default_name in final_arguments` holds for the accumulated
ordered mapping (keys are effective names, values are store indices). -/
def containsKey (acc : List (String × Nat)) (k : String) : Bool :=
  (acc.map Prod.fst).contains k

/-- One iteration of the `for key, value in all_args` loop of
`translate_arguments`: `Dynamic` with unresolved type is skipped; an
`ImplicitField` (including a resolved `Dynamic`, which is itself an
`ImplicitField`) is mounted into a fresh `Argument` via `create_new_field`
(its `creation_counter` is the untouched class attribute, see
`baseFieldInitCounter`); a `Field`/`InputField` raises `ValueError`; an
existing `Argument` is used as-is; anything else leaves `instance = None` and
the entry is dropped.  For a surviving instance: `default_name =
instance.name or key`; if `instance.name is None` the instance is mutated in
place to carry `default_name`; a duplicate effective name raises
`ValueError`; otherwise the instance is appended to the ordered result. -/
def translateArgumentsStep (st : ArgStore) (acc : List (String × Nat))
    (key : String) (v : ArgValue) :
    Except PyError (ArgStore × List (String × Nat)) :=
  match v with
  | .dynamicV none => .ok (st, acc)
  | .dynamicV (some t) =>
      let obj : ArgumentObj :=
        { name := some key, ftype := t, defaultValue := none,
          deprecationReason := none, counter := baseFieldInitCounter }
      if containsKey acc key then .error .valueError
      else .ok (st ++ [obj], acc ++ [(key, st.length)])
  | .implicitV t _ =>
      let obj : ArgumentObj :=
        { name := some key, ftype := t, defaultValue := none,
          deprecationReason := none, counter := baseFieldInitCounter }
      if containsKey acc key then .error .valueError
      else .ok (st ++ [obj], acc ++ [(key, st.length)])
  | .fieldV _ => .error .valueError
  | .otherV => .ok (st, acc)
  | .argRef i =>
      match st[i]? with
      | none => .error .modelGap
      | some a =>
          let defaultName := pyOrName a.name key
          let st' :=
            if a.name = none then st.set i { a with name := some defaultName }
            else st
          if containsKey acc defaultName then .error .valueError
          else .ok (st', acc ++ [(defaultName, i)])

/-- The loop of `translate_arguments` over the chained entry list. -/
def translateArgumentsGo (st : ArgStore) (acc : List (String × Nat)) :
    List (String × ArgValue) → Except PyError (ArgStore × List (String × Nat))
  | [] => .ok (st, acc)
  | (key, v) :: rest =>
      match translateArgumentsStep st acc key v with
      | .ok (st', acc') => translateArgumentsGo st' acc' rest
      | .error e => .error e

/-- `Argument.translate_arguments` (arguments.py 80-122): the entries of
`args` followed by the entries of `extra_args`, each mapping in its own
insertion order (`itertools.chain`, line 80-85; no sorting is applied). -/
def translateArguments (st : ArgStore)
    (args extraArgs : List (String × ArgValue)) :
    Except PyError (ArgStore × List (String × Nat)) :=
  translateArgumentsGo st [] (args ++ extraArgs)

/-- The `creation_counter` sort key a mapping value would contribute if
`extra_args` were sorted the way claim C5 describes (`sorted(...)` compares
`BaseField.__lt__`, which compares `creation_counter`). -/
def entryCounter (st : ArgStore) : ArgValue → Nat
  | .implicitV _ c => c
  | .argRef i => (st[i]?).elim 0 (fun a => a.counter)
  | .dynamicV _ => baseFieldInitCounter
  | .fieldV _ => baseFieldInitCounter
  | .otherV => 0

/-- Stable insertion into a counter-ascending list (equal counters keep their
original relative order). -/
def insertByCounter (st : ArgStore) (x : String × ArgValue) :
    List (String × ArgValue) → List (String × ArgValue)
  | [] => [x]
  | y :: ys =>
      if entryCounter st y.2 ≤ entryCounter st x.2 then
        y :: insertByCounter st x ys
      else x :: y :: ys

/-- Stable sort of the `extra_args` entries by creation counter. -/
def sortByCounter (st : ArgStore) (l : List (String × ArgValue)) :
    List (String × ArgValue) :=
  l.foldr (insertByCounter st) []

/-- Modelled from the spec's words for the refinement comparison in claim C5:
the same translation loop, but fed `args.items()` followed by the
`extra_args` entries sorted by their creation order, as the claim states the
code behaves ("Concatenate `args.items()` then sorted-by-creation-order
`extra_args.items()`"). -/
def translateArgumentsSortedSpec (st : ArgStore)
    (args extraArgs : List (String × ArgValue)) :
    Except PyError (ArgStore × List (String × Nat)) :=
  translateArgumentsGo st [] (args ++ sortByCounter st extraArgs)

/-- The ordered effective-name list of a translation result (`[]` projected
out of an error only to keep the projection total; the theorems below always
establish the `.ok` case separately). -/
def resultKeys (r : Except PyError (ArgStore × List (String × Nat))) :
    List String :=
  match r with
  | .ok (_, m) => m.map Prod.fst
  | .error _ => []

/-! ## The type container (src/new_graphene/schema.py 32-314)

`TypesContainer` maps declared-type names to translated GraphQL-native
objects.  Declared Python classes are modelled by `Decl` records; classes
referenced from field descriptors are addressed through an environment
(`Env`), keyed by a model identifier per class (the Python heap of declared
classes).  Native-object identity, which claim C3 is about, is modelled by an
allocation stamp drawn from a counter in the container state: two native
values are "the same object" exactly when they are equal including their
stamp, and a translation pass that allocates nothing leaves `nextStamp`
unchanged.  The recursive walk is given explicit fuel; every recursive call
strictly decreases it, and `PyError.outOfFuel` marks exhaustion (never hit by
the theorems' evaluations). -/

/-- An interface declaration as consulted by `_get_field_resolver`
(schema.py 82-116): its name, the names of its built fields, and the names of
the methods defined on it. -/
structure InterfaceDecl where
  name : String
  fieldNames : List String
  methods : List String
  deriving DecidableEq, Repr

/-- An `Argument` as it sits in a field's `_arguments` after
`translate_arguments` (consumed by `_translate_fields`, schema.py 154-162). -/
structure ArgTr where
  name : Option String
  ftypeId : String
  defaultValue : Option String
  deprecationReason : Option String
  deriving DecidableEq, Repr

/-- A field descriptor as consumed by `_translate_fields`: its
`field_type` (the referenced class, by environment id), its `_arguments`,
its explicit `resolver` (a function tag), and its `name`/`description`/
`deprecation_reason`/`default_value` configuration. -/
structure FieldObj where
  ftypeId : String
  arguments : List (String × ArgTr)
  resolverTag : Option Nat
  nameOv : Option String
  description : Option String
  deprecationReason : Option String
  defaultValue : Option String
  deriving DecidableEq, Repr

/-- An object-type declaration: `_meta.fields`, `_meta.interfaces`, the
`resolve_*`/`subscribe_*` methods defined on the class, and
`_meta.default_resolver`. -/
structure ObjDecl where
  fields : List (String × FieldObj)
  interfaces : List InterfaceDecl
  methods : List String
  defaultResolverTag : Option Nat
  deriving DecidableEq, Repr

/-- The kind dispatch data of a declared type (`issubclass` chain of
`add_to_self`, schema.py 249-260): a scalar (carrying `_meta._class_name`,
consulted by `translate_scalar`), an object type, an interface, or anything
else (with a `_meta.name` but no matching branch). -/
inductive DeclBody where
  | scalarB (className : String)
  | objectB (o : ObjDecl)
  | interfaceB (i : InterfaceDecl)
  | otherB
  deriving DecidableEq, Repr

/-- A declared type: `_meta.name` (absence is the `ValueError` case of
`add_to_self`), `_meta.description`, and the kind payload. -/
structure Decl where
  name : Option String
  description : Option String
  body : DeclBody
  deriving DecidableEq, Repr

/-- The environment of declared classes, keyed by model identifier. -/
abbrev Env := List (String × Decl)

/-- A resolver function as wired onto a native field: the field descriptor's
explicit `resolver`; a `resolve_*`/`subscribe_*` method found on the declared
type; one found on an interface; the subscription identity resolver
`resolve_for_subscription`; or `functools.partial(default, name,
default_value)` built from `_meta.default_resolver or default_resolver()`
(`customTag = none` is the generic `default_resolver()`). -/
inductive Resolver where
  | explicitR (tag : Nat)
  | methodR (owner : String) (funcName : String)
  | imethodR (ifaceName : String) (funcName : String)
  | subscriptionDefaultR
  | defaultPartialR (customTag : Option Nat) (fieldName : String)
      (defaultValue : Option String)
  deriving DecidableEq, Repr

/-- A translated GraphQL-native value: the predefined scalar singletons
(`GraphQLString` …), a `GrapheneGraphqlScalarType`, a
`GrapheneGraphqlObjectType` (its interfaces are handed over lazily as a
closure, so only the declared interface names are recorded), a
`GraphQLField`/`GraphQLInputField`/`GraphQLArgument`, the raw (untranslated)
value returned by the `inspect.isfunction` branch of `add_to_self`, and
Python `None`.  Allocating constructors carry the allocation stamp. -/
inductive NT where
  | predefined (globalName : String)
  | customScalar (name : String) (description : Option String) (stamp : Nat)
  | objectN (name : String) (fields : List (String × NT))
      (ifaceNames : List String) (description : Option String) (stamp : Nat)
  | fieldN (ftype : NT) (args : List (String × NT)) (resolver : Resolver)
      (subscribe : Option Resolver) (description : Option String)
      (deprecationReason : Option String)
  | inputFieldN (ftype : NT) (description : Option String)
      (defaultValue : Option String) (deprecationReason : Option String)
  | argN (ftype : NT) (defaultValue : Option String)
      (deprecationReason : Option String)
  | rawN (declId : String)
  | noneN

/-- The container state: the name → native memo table (the `dict` that
`TypesContainer` subclasses) and the next allocation stamp. -/
structure CState where
  memo : List (String × NT)
  nextStamp : Nat

/-- The argument of `add_to_self`: a declared class, or a plain function
(the `inspect.isfunction` branch calls it and returns its result raw —
`fnI id` models a zero-argument function returning the class with model id
`id`). -/
inductive GInput where
  | declI (d : Decl)
  | fnI (resultId : String)
  deriving DecidableEq, Repr

/-- `translate_scalar` (schema.py 271-296): the five built-in class names map
to the engine's predefined scalar singletons; any other scalar allocates a
`GrapheneGraphqlScalarType` carrying the declared name and description. -/
def translateScalar (st : CState) (name : String) (className : String)
    (description : Option String) : CState × NT :=
  match listLookup
      [("String", "GraphQLString"), ("Integer", "GraphQLInt"),
       ("Float", "GraphQLFloat"), ("Boolean", "GraphQLBoolean"),
       ("ID", "GraphQLID")] className with
  | some g => (st, .predefined g)
  | none =>
      ({ st with nextStamp := st.nextStamp + 1 },
       .customScalar name description st.nextStamp)

/-- `_get_field_resolver` (schema.py 82-116): look up `func_name` on the
declared type first; failing that, take the first declared interface that
both declares `field_name` among its fields and defines `func_name`. -/
def getFieldResolver (gtName : String) (o : ObjDecl)
    (funcName fieldName : String) : Option Resolver :=
  if o.methods.contains funcName then some (.methodR gtName funcName)
  else
    match o.interfaces.find?
        (fun i => i.fieldNames.contains fieldName &&
                  i.methods.contains funcName) with
    | some i => some (.imethodR i.name funcName)
    | none => none

/-- `arg.name or self.get_name(name)` (schema.py 156): a falsy `arg.name`
would call `self.get_name`, a method `TypesContainer` does not define, so
Python would raise `AttributeError`; arguments that went through
`translate_arguments` always carry a non-empty name. -/
def nativeArgName (n : Option String) : Except PyError String :=
  match n with
  | some s => if s.isEmpty then .error .attributeError else .ok s
  | none => .error .attributeError

mutual

/-- `add_to_self` (schema.py 231-269).  `None` returns `None`; a plain
function is called and its result returned raw (no recursion, no memo);
otherwise `_meta.name` is required (`ValueError` when absent), the memo is
consulted (a hit returns the stored native object unconditionally), and on a
miss the `issubclass` chain dispatches: scalars through `translate_scalar`,
object types through `translate_objecttype`, interfaces fall into the branch
that replaces the value with `None` so the final `if graphql_type is None`
check raises `ValueError` (nothing is stored); any other input also reaches
that `ValueError`.  A successful translation is stored in the memo under the
name before being returned. -/
def addToSelf (fuel : Nat) (env : Env) (st : CState) (input : Option GInput) :
    CState × Except PyError NT :=
  match fuel with
  | 0 => (st, .error .outOfFuel)
  | fuel + 1 =>
      match input with
      | none => (st, .ok .noneN)
      | some (.fnI rid) => (st, .ok (.rawN rid))
      | some (.declI d) =>
          match d.name with
          | none => (st, .error .valueError)
          | some nm =>
              match listLookup st.memo nm with
              | some t => (st, .ok t)
              | none =>
                  match d.body with
                  | .scalarB cn =>
                      let (st1, t) := translateScalar st nm cn d.description
                      ({ st1 with memo := upsert st1.memo (nm, t) }, .ok t)
                  | .objectB o =>
                      match translateObjecttype fuel env st nm o
                          d.description with
                      | (st1, .ok t) =>
                          ({ st1 with memo := upsert st1.memo (nm, t) },
                           .ok t)
                      | (st1, .error e) => (st1, .error e)
                  | .interfaceB _ => (st, .error .valueError)
                  | .otherB => (st, .error .valueError)

/-- `translate_objecttype` (schema.py 298-314): translate the field map
eagerly through `_translate_fields`, then allocate the native object type;
the `interfaces()` closure is passed lazily to the native constructor, so
only the declared interface names are recorded. -/
def translateObjecttype (fuel : Nat) (env : Env) (st : CState) (nm : String)
    (o : ObjDecl) (description : Option String) :
    CState × Except PyError NT :=
  match fuel with
  | 0 => (st, .error .outOfFuel)
  | fuel + 1 =>
      match translateFields fuel env st nm o false with
      | (st1, .ok fs) =>
          ({ st1 with nextStamp := st1.nextStamp + 1 },
           .ok (.objectN nm fs (o.interfaces.map (fun i => i.name))
                description st1.nextStamp))
      | (st1, .error e) => (st1, .error e)

/-- `_translate_fields` (schema.py 119-208): iterate the declared field map
in order and build the native field map (last write wins on an external-name
collision, `_final_fields[field_name] = _final_field`). -/
def translateFields (fuel : Nat) (env : Env) (st : CState) (gtName : String)
    (o : ObjDecl) (isInput : Bool) :
    CState × Except PyError (List (String × NT)) :=
  match fuel with
  | 0 => (st, .error .outOfFuel)
  | fuel + 1 => translateFieldsGo fuel env st gtName o o.fields isInput []

/-- The `for name, field_obj in graphene_type._meta.fields.items()` loop of
`_translate_fields`. -/
def translateFieldsGo (fuel : Nat) (env : Env) (st : CState)
    (gtName : String) (o : ObjDecl) (fields : List (String × FieldObj))
    (isInput : Bool) (acc : List (String × NT)) :
    CState × Except PyError (List (String × NT)) :=
  match fuel with
  | 0 => (st, .error .outOfFuel)
  | fuel + 1 =>
      match fields with
      | [] => (st, .ok acc)
      | (fname, f) :: rest =>
          match translateOneField fuel env st gtName o fname f isInput with
          | (st1, .ok (extName, nf)) =>
              translateFieldsGo fuel env st1 gtName o rest isInput
                (upsert acc (extName, nf))
          | (st1, .error e) => (st1, .error e)

/-- One iteration of the `_translate_fields` loop (schema.py 137-206).
The inner loop `for name, arg in field_obj._arguments.items()` (line 154)
rebinds the Python variable `name`, which leaks out of the loop: every use of
`name` after it — the `subscribe_<name>`/`resolve_<name>` lookups (lines
165-191) and the external field name (line 205) — sees the LAST argument key
instead of the field's own key whenever the field has arguments.  The model
makes this explicit as `shadowedName`.  The subscription-default assignment
(line 178) is unconditionally overwritten for object types by the
`issubclass(graphene_type, ObjectType)` branch (lines 180-184); this model is
only invoked on object types, so that branch always runs. -/
def translateOneField (fuel : Nat) (env : Env) (st : CState)
    (gtName : String) (o : ObjDecl) (fname : String) (f : FieldObj)
    (isInput : Bool) : CState × Except PyError (String × NT) :=
  match fuel with
  | 0 => (st, .error .outOfFuel)
  | fuel + 1 =>
      match
        (match listLookup env f.ftypeId with
         | some d => addToSelf fuel env st (some (.declI d))
         | none => (st, .error .modelGap)) with
      | (st1, .error e) => (st1, .error e)
      | (st1, .ok inputOrOutputType) =>
          if isInput then
            (st1, .ok (pyOrName f.nameOv fname,
              .inputFieldN inputOrOutputType f.description f.defaultValue
                f.deprecationReason))
          else
            match translateNativeArgs fuel env st1 f.arguments [] with
            | (st2, .error e) => (st2, .error e)
            | (st2, .ok builtArgs) =>
                let shadowedName :=
                  ((f.arguments.map Prod.fst).getLast?).getD fname
                let subscribe :=
                  getFieldResolver gtName o ("subscribe_" ++ shadowedName)
                    shadowedName
                let fieldDefaultResolver : Resolver :=
                  .defaultPartialR o.defaultResolverTag shadowedName
                    f.defaultValue
                let funcResolver :=
                  getFieldResolver gtName o ("resolve_" ++ shadowedName)
                    shadowedName
                let resolver :=
                  match f.resolverTag with
                  | some r => .explicitR r
                  | none => funcResolver.getD fieldDefaultResolver
                let extName := pyOrName f.nameOv shadowedName
                (st2, .ok (extName,
                  .fieldN inputOrOutputType builtArgs resolver subscribe
                    f.description f.deprecationReason))

/-- The `for name, arg in field_obj._arguments.items()` loop building
`built_args` (schema.py 153-162): each argument's type goes through
`add_to_self`, its native name is `arg.name or self.get_name(name)` (see
`nativeArgName`), and the native argument carries default and deprecation. -/
def translateNativeArgs (fuel : Nat) (env : Env) (st : CState)
    (args : List (String × ArgTr)) (acc : List (String × NT)) :
    CState × Except PyError (List (String × NT)) :=
  match fuel with
  | 0 => (st, .error .outOfFuel)
  | fuel + 1 =>
      match args with
      | [] => (st, .ok acc)
      | (_, a) :: rest =>
          match
            (match listLookup env a.ftypeId with
             | some d => addToSelf fuel env st (some (.declI d))
             | none => (st, .error .modelGap)) with
          | (st1, .error e) => (st1, .error e)
          | (st1, .ok createdType) =>
              match nativeArgName a.name with
              | .error e => (st1, .error e)
              | .ok argName =>
                  translateNativeArgs fuel env st1 rest
                    (upsert acc
                      (argName,
                       .argN createdType a.defaultValue a.deprecationReason))

end

/-! ## Concrete fixtures used by the claim theorems -/

/-- Whether a mapping value is a mounted implicit instance. -/
def isImplicitArg : ArgValue → Bool
  | .implicitV _ _ => true
  | _ => false

/-- The declared `String` scalar class. -/
def stringScalarDecl : Decl :=
  { name := some "String", description := none, body := .scalarB "String" }

/-- Environment holding the `String` scalar for the claim C2 scenario. -/
def envC2 : Env := [("String", stringScalarDecl)]

/-- The claim C2 field: `name = Field(String, args={'search': Argument(String)})`
(the argument's `name` was set to `"search"` by `translate_arguments`, see
claim C10). -/
def fieldC2 : FieldObj :=
  { ftypeId := "String",
    arguments := [("search",
      { name := some "search", ftypeId := "String", defaultValue := none,
        deprecationReason := none })],
    resolverTag := none, nameOv := none, description := none,
    deprecationReason := none, defaultValue := none }

/-- The claim C2 declared object type `T`: one field `name` and a
`resolve_name` method. -/
def objC2 : ObjDecl :=
  { fields := [("name", fieldC2)], interfaces := [],
    methods := ["resolve_name"], defaultResolverTag := none }

/-- The `extra_args` entries of the claim C5 counterexample: keyword-dict
insertion order `b` then `a`, creation counters `5` then `2` (so
declaration/creation order is `a` then `b`). -/
def extraC5 : List (String × ArgValue) :=
  [("b", .implicitV 7 5), ("a", .implicitV 7 2)]

/-- An object type with no fields, interfaces or methods. -/
def emptyObjDecl : ObjDecl :=
  { fields := [], interfaces := [], methods := [], defaultResolverTag := none }

/-- The declared object type `User` of the claim C3 witness. -/
def userDeclC3 : Decl :=
  { name := some "User", description := none, body := .objectB emptyObjDecl }

/-- A container state already holding a native object under `"User"`. -/
def stC3 : CState := { memo := [("User", .predefined "X")], nextStamp := 5 }

/-- The interface of the claim C9 witness. -/
def hasAgeInterface : InterfaceDecl :=
  { name := "HasAge", fieldNames := ["age"], methods := [] }

/-- The declared interface type of the claim C9 witness. -/
def hasAgeDecl : Decl :=
  { name := some "HasAge", description := none,
    body := .interfaceB hasAgeInterface }

/-- An `Argument` object with no explicit name. -/
def argNoName : ArgumentObj :=
  { name := none, ftype := 3, defaultValue := none,
    deprecationReason := none, counter := 1 }

/-- An `Argument(String, name="x")`-style object. -/
def argNamedX3 : ArgumentObj :=
  { name := some "x", ftype := 3, defaultValue := none,
    deprecationReason := none, counter := 1 }

/-- An `Argument(Integer, name="x")`-style object. -/
def argNamedX4 : ArgumentObj :=
  { name := some "x", ftype := 4, defaultValue := none,
    deprecationReason := none, counter := 1 }

/-- The `argNoName` object after a first translation under key `"first"`. -/
def argNamedFirst : ArgumentObj :=
  { name := some "first", ftype := 3, defaultValue := none,
    deprecationReason := none, counter := 1 }

/-- Helper lemma for claim C5: on a run of mounted-implicit entries with
pairwise-distinct keys, the `translate_arguments` loop succeeds and emits the
effective names exactly in processing order. -/
theorem translateArgumentsGo_implicit_keys :
    ∀ (l : List (String × ArgValue)) (st : ArgStore)
      (acc : List (String × Nat)),
      (∀ p ∈ l, isImplicitArg p.2 = true) →
      (acc.map Prod.fst ++ l.map Prod.fst).Nodup →
      ∃ st2 m, translateArgumentsGo st acc l = .ok (st2, m) ∧
        m.map Prod.fst = acc.map Prod.fst ++ l.map Prod.fst := by
  intro l
  induction l with
  | nil =>
      intro st acc _ _
      exact ⟨st, acc, rfl, by simp⟩
  | cons hd rest ih =>
      intro st acc himp hnd
      obtain ⟨k, v⟩ := hd
      have hv : isImplicitArg v = true := himp (k, v) (by simp)
      obtain ⟨t, c, rfl⟩ : ∃ t c, v = .implicitV t c := by
        cases v with
        | implicitV t c => exact ⟨t, c, rfl⟩
        | dynamicV r => simp [isImplicitArg] at hv
        | fieldV t => simp [isImplicitArg] at hv
        | argRef i => simp [isImplicitArg] at hv
        | otherV => simp [isImplicitArg] at hv
      have hknotin : k ∉ acc.map Prod.fst := by
        simp only [List.map_cons] at hnd
        rw [List.nodup_append] at hnd
        exact fun hmem => hnd.2.2 hmem (by simp)
      have hcontains : containsKey acc k = false := by
        simp only [containsKey]
        simpa using hknotin
      have hstep : translateArgumentsGo st acc ((k, ArgValue.implicitV t c) :: rest) =
          translateArgumentsGo (st ++
            [{ name := some k, ftype := t, defaultValue := none,
               deprecationReason := none, counter := baseFieldInitCounter }])
            (acc ++ [(k, st.length)]) rest := by
        simp [translateArgumentsGo, translateArgumentsStep, hcontains]
      rw [hstep]
      have hnd' : ((acc ++ [(k, st.length)]).map Prod.fst ++
          rest.map Prod.fst).Nodup := by
        simp only [List.map_append, List.map_cons, List.map_nil,
          List.append_assoc, List.singleton_append]
        simpa using hnd
      obtain ⟨st2, m, hrun, hkeys⟩ :=
        ih (st ++
            [{ name := some k, ftype := t, defaultValue := none,
               deprecationReason := none, counter := baseFieldInitCounter }])
          (acc ++ [(k, st.length)])
          (fun p hp => himp p (by simp [hp])) hnd'
      refine ⟨st2, m, hrun, ?_⟩
      rw [hkeys]
      simp

/-! ## Claim theorems -/

/-- Claim C1, counterexample.  `BaseObjectType.__new__` merges with
`filtered_fields.update(interface._meta.fields)` (base.py 154-156): when the
object type declares its own `age` (descriptor tag `0`) and the interface
also declares `age` (descriptor tag `1`), the merged working field set holds
the interface's descriptor, not the type's own — the opposite of the claim's
"T's own descriptor". -/
theorem C1_own_age_overridden_by_interface :
    listLookup (mergedInterfaceFields [("age", 0)] [[("age", 1)]]) "age" =
      some 1 ∧ some 1 ≠ (some 0 : Option Nat) := by
  exact ⟨rfl, by decide⟩

/-- Claim C1, amended.  When object type `T` implements interface `I`, the
merged working field set contains, for every name, `I`'s descriptor whenever
`I` declares that name (the `dict.update` with the interface's fields
overwrites a same-named own field), and `T`'s own descriptor only for names
`I` does not declare; in particular `T`'s merged map contains `I`'s `age`
when `T` declares no own `age`, and still `I`'s `age` when `T` does. -/
theorem C1_interface_fields_override_own {α : Type}
    (own iface : List (String × α)) (k : String)
    (hnd : (iface.map Prod.fst).Nodup) :
    listLookup (mergedInterfaceFields own [iface]) k =
      match listLookup iface k with
      | some v => some v
      | none => listLookup own k := by
  have : mergedInterfaceFields own [iface] = dictUpdate own iface := by
    simp [mergedInterfaceFields]
  rw [this]
  exact dictUpdate_lookup iface own k hnd

/-- Witness for claim C1's amended theorem at a concrete input: an own `age`
(tag `0`) merged with an interface `age` (tag `1`) yields the interface's
descriptor, and the own-only field `name` (tag `7`) survives. -/
theorem C1_interface_fields_override_own_witness :
    listLookup (mergedInterfaceFields [("age", 0), ("name", 7)]
      [[("age", 1)]]) "age" = some 1 ∧
    listLookup (mergedInterfaceFields [("age", 0), ("name", 7)]
      [[("age", 1)]]) "name" = some 7 := by
  constructor
  · rw [C1_interface_fields_override_own [("age", 0), ("name", 7)]
      [("age", 1)] "age" (by decide)]
    rfl
  · rw [C1_interface_fields_override_own [("age", 0), ("name", 7)]
      [("age", 1)] "name" (by decide)]
    rfl

/-- Claim C2: the code at the failing input.  For `T` with field `name`
carrying `resolve_name` and `args={'search': Argument(String)}`, the
argument loop of `_translate_fields` leaves the Python variable `name` bound
to `"search"` (schema.py 154), so the code searches `resolve_search`, finds
nothing, attaches the generic default-resolver partial for key `"search"`,
and even registers the field under the external name `"search"` — the
declared `resolve_name` is never wired, contradicting the claim. -/
theorem C2_resolve_name_not_wired :
    (translateFields 10 envC2 ⟨[], 0⟩ "T" objC2 false).2 =
      .ok [("search",
        .fieldN (.predefined "GraphQLString")
          [("search", .argN (.predefined "GraphQLString") none none)]
          (.defaultPartialR none "search" none) none none none)] ∧
    Resolver.defaultPartialR none "search" none ≠ .methodR "T" "resolve_name" := by
  exact ⟨rfl, by decide⟩

/-- Claim C3: the memoization invariant of `add_to_self` (schema.py 241-247).
Whatever the container state — including any intermediate state of a walk
over a mutually recursive type graph — once a native object is stored under a
declared type's name, every later `add_to_self` call for a declared type with
that name returns exactly that stored object and leaves the container state
(memo table and allocation counter) untouched: nothing is re-translated and
no new native object is allocated. -/
theorem C3_add_to_self_memo_hit (fuel : Nat) (env : Env) (st : CState)
    (d : Decl) (nm : String) (t : NT) (h1 : d.name = some nm)
    (h2 : listLookup st.memo nm = some t) :
    addToSelf (fuel + 1) env st (some (.declI d)) = (st, .ok t) := by
  simp [addToSelf, h1, h2]

/-- Witness for claim C3: a container already holding `"User"` returns the
stored native object unchanged on a second request for `"User"`. -/
theorem C3_add_to_self_memo_hit_witness :
    addToSelf 1 [] stC3 (some (.declI userDeclC3)) =
      (stC3, .ok (.predefined "X")) :=
  C3_add_to_self_memo_hit 0 [] stC3 userDeclC3 "User" (.predefined "X") rfl rfl

/-- Claim C4: the code at the failing input.  `BaseField.__init__`
(helpers.py 79-82) never assigns `creation_counter`; every descriptor
observes the class attribute `1`, so two successive constructions carry equal
counters — neither globally unique nor strictly increasing (the repository's
own test `tests/fields/test_field.py` asserts `creation_counter > 1` after
construction, which this makes impossible). -/
theorem C4_creation_counter_constant :
    constructedCounters 2 = [1, 1] ∧
    ¬ List.Pairwise (· < ·) (constructedCounters 2) ∧
    ¬ List.Pairwise (· ≠ ·) (constructedCounters 2) := by
  refine ⟨rfl, ?_, ?_⟩ <;> decide

/-- Claim C5, counterexample.  `translate_arguments` chains
`args.items()` with `extra_args.items()` as-is (arguments.py 80-85) — no sort
by creation order.  With `extra_args` insertion order `b` (counter 5) then
`a` (counter 2), the code emits `["b", "a"]`, while the claim's
sorted-by-creation-order processing would emit `["a", "b"]`: the resulting
map does depend on keyword-dict insertion order. -/
theorem C5_extra_args_follow_insertion_order :
    resultKeys (translateArguments [] [] extraC5) = ["b", "a"] ∧
    resultKeys (translateArgumentsSortedSpec [] [] extraC5) = ["a", "b"] ∧
    (["b", "a"] : List String) ≠ ["a", "b"] := by
  refine ⟨rfl, rfl, by decide⟩

/-- Claim C5, amended.  Argument translation processes the field's declared
`args` entries first, followed by the `extra_args` entries in their mapping
insertion order; no sorting by creation order is applied, so the resulting
ordered argument map lists extra/shorthand arguments in keyword-dict
insertion order relative to each other.  Stated for entries that are mounted
implicit instances with pairwise-distinct keys (the shorthand-argument
shape the claim describes). -/
theorem C5_args_then_extra_in_insertion_order (st : ArgStore)
    (args extraArgs : List (String × ArgValue))
    (himp : ∀ p ∈ args ++ extraArgs, isImplicitArg p.2 = true)
    (hnd : ((args ++ extraArgs).map Prod.fst).Nodup) :
    resultKeys (translateArguments st args extraArgs) =
      args.map Prod.fst ++ extraArgs.map Prod.fst := by
  obtain ⟨st2, m, hrun, hkeys⟩ :=
    translateArgumentsGo_implicit_keys (args ++ extraArgs) st [] himp
      (by simpa using hnd)
  simp only [translateArguments, hrun, resultKeys]
  simpa using hkeys

/-- Witness for claim C5's amended theorem: one declared `args` entry and the
two `extra_args` entries of the counterexample translate to the keys
`["x", "b", "a"]` — `args` first, then `extra_args` in insertion order. -/
theorem C5_args_then_extra_in_insertion_order_witness :
    resultKeys (translateArguments [] [("x", .implicitV 1 9)] extraC5) =
      ["x", "b", "a"] := by
  rw [C5_args_then_extra_in_insertion_order [] [("x", .implicitV 1 9)]
    extraC5 (by decide) (by decide)]
  rfl

/-- Claim C6: the code at the failing input.  `Integer.resolve_value`
round-trips every in-range integer and yields `Undefined` at `2^31` and at
`-2^31 - 1` (datatypes.py 130-143), and the base `Scalar.resolve_value` is
the identity — but `Float.resolve_value` (datatypes.py 202-207) assigns
`value = float(value)` and then falls off the end of the function, returning
Python `None` for every in-range input instead of the value: the round-trip
fails for the float kind. -/
theorem C6_float_resolve_value_returns_none :
    intResolveValue (.vint 5) = .ok (.vint 5) ∧
    intResolveValue (.vint 2147483647) = .ok (.vint 2147483647) ∧
    intResolveValue (.vint (-2147483648)) = .ok (.vint (-2147483648)) ∧
    intResolveValue (.vint 2147483648) = .ok .vundefined ∧
    intResolveValue (.vint (-2147483649)) = .ok .vundefined ∧
    strResolveValue (.vstr "alice") = .vstr "alice" ∧
    scalarResolveValue (.vbool true) = .vbool true ∧
    floatResolveValue (.vfloat (3 / 2)) = .ok .vnone ∧
    PyVal.vnone ≠ .vfloat (3 / 2) := by
  refine ⟨rfl, rfl, rfl, rfl, rfl, rfl, rfl, rfl, by decide⟩

/-- Claim C7: effective argument naming (arguments.py 105-122).  A translated
`Argument` entry is keyed by `instance.name or key` — in particular an entry
with no explicit name yields an argument named after its mapping key — and
two entries carrying the same explicit name `"x"` raise `ValueError`. -/
theorem C7_effective_argument_names :
    (∀ (st : ArgStore) (i : Nat) (a : ArgumentObj) (k : String),
      st[i]? = some a →
      translateArguments st [(k, .argRef i)] [] =
        .ok ((if a.name = none then
                st.set i { a with name := some (pyOrName a.name k) }
              else st),
             [(pyOrName a.name k, i)])) ∧
    (∀ (st : ArgStore) (i j : Nat) (a b : ArgumentObj) (k1 k2 : String),
      st[i]? = some a → st[j]? = some b →
      a.name = some "x" → b.name = some "x" →
      translateArguments st [(k1, .argRef i), (k2, .argRef j)] [] =
        .error .valueError) := by
  constructor
  · intro st i a k h
    simp [translateArguments, translateArgumentsGo, translateArgumentsStep,
      h, containsKey]
  · intro st i j a b k1 k2 hi hj ha hb
    have hxe : "x".isEmpty = false := rfl
    simp [translateArguments, translateArgumentsGo, translateArgumentsStep,
      hi, hj, ha, hb, containsKey, pyOrName, hxe]

/-- Witness for claim C7: an `Argument` with no explicit name under key `"A"`
becomes the argument named `"A"`; two arguments explicitly named `"x"` raise
`ValueError`. -/
theorem C7_effective_argument_names_witness :
    translateArguments [argNoName] [("A", .argRef 0)] [] =
      .ok ([{ argNoName with name := some "A" }], [("A", 0)]) ∧
    translateArguments [argNamedX3, argNamedX4]
        [("A", .argRef 0), ("B", .argRef 1)] [] = .error .valueError := by
  constructor
  · rw [C7_effective_argument_names.1 [argNoName] 0 argNoName "A" rfl]
    rfl
  · exact C7_effective_argument_names.2 [argNamedX3, argNamedX4] 0 1
      argNamedX3 argNamedX4 "A" "B" rfl rfl rfl rfl

/-- Claim C8: the code at the failing input.  Comparing structural wrappers
never evaluates to a boolean at all: `ImplicitField.__eq__` (helpers.py
226-235) eagerly calls `self.get_type()`, a method no class of the live
hierarchy defines (it was renamed `_get_type`), so `List(String) ==
List(String)`, `List(String) == List(Integer)`, `List(String) ==
NonNull(String)` and `List(String) == SomeScalar()` all raise
`AttributeError` instead of deciding wrapper kind and inner-type equality. -/
theorem C8_wrapper_equality_raises_attribute_error :
    fieldInstanceEq (.listI 0) (.listI 0) = .error .attributeError ∧
    fieldInstanceEq (.listI 0) (.listI 1) = .error .attributeError ∧
    fieldInstanceEq (.listI 0) (.nonNullI 0) = .error .attributeError ∧
    fieldInstanceEq (.nonNullI 0) (.nonNullI 0) = .error .attributeError ∧
    fieldInstanceEq (.listI 0) (.scalarI 2) = .error .attributeError := by
  refine ⟨?_, ?_, ?_, ?_, ?_⟩ <;> rfl

/-- Claim C9: `add_to_self` on an `Interface` subtype (schema.py 249-269).
On a memo miss the `issubclass` dispatch reaches the interface branch, which
sets the local to `None`, so the final `if graphql_type is None` check raises
`ValueError`; the state (memo table and allocation counter) is returned
untouched — the interface is never translated and nothing is stored under its
name. -/
theorem C9_interface_raises_value_error (fuel : Nat) (env : Env) (st : CState)
    (d : Decl) (i : InterfaceDecl) (nm : String) (h1 : d.name = some nm)
    (h2 : d.body = .interfaceB i) (h3 : listLookup st.memo nm = none) :
    addToSelf (fuel + 1) env st (some (.declI d)) = (st, .error .valueError) := by
  simp [addToSelf, h1, h2, h3]

/-- Witness for claim C9: adding the interface `HasAge` to an empty container
raises `ValueError` and leaves the container empty. -/
theorem C9_interface_raises_value_error_witness :
    addToSelf 1 [] ⟨[], 0⟩ (some (.declI hasAgeDecl)) =
      (⟨[], 0⟩, .error .valueError) :=
  C9_interface_raises_value_error 0 [] ⟨[], 0⟩ hasAgeDecl hasAgeInterface
    "HasAge" rfl rfl rfl

/-- Claim C10: `translate_arguments` mutates its input in place
(arguments.py 112-114).  An `Argument` whose `name` is `None` has its `name`
attribute set to the mapping key during translation; an `Argument` already
carrying a (non-empty) name — such as one assigned at a first translation —
keeps that name when translated again under a different key, and the entry is
keyed by the stored name, not the new key. -/
theorem C10_argument_name_set_in_place :
    (∀ (st : ArgStore) (i : Nat) (a : ArgumentObj) (k : String),
      st[i]? = some a → a.name = none →
      translateArguments st [(k, .argRef i)] [] =
        .ok (st.set i { a with name := some k }, [(k, i)])) ∧
    (∀ (st : ArgStore) (i : Nat) (a : ArgumentObj) (k k' : String),
      st[i]? = some a → a.name = some k → ¬ k.isEmpty →
      translateArguments st [(k', .argRef i)] [] = .ok (st, [(k, i)])) := by
  constructor
  · intro st i a k h hn
    simp [translateArguments, translateArgumentsGo, translateArgumentsStep,
      h, hn, containsKey, pyOrName]
  · intro st i a k k' h hn hne
    simp [translateArguments, translateArgumentsGo, translateArgumentsStep,
      h, hn, containsKey, pyOrName, hne]

/-- Witness for claim C10: translating the no-name `Argument` under key
`"first"` stores `name = "first"` on the object itself; re-translating the
mutated object under key `"second"` keeps and uses `"first"`. -/
theorem C10_argument_name_set_in_place_witness :
    translateArguments [argNoName] [("first", .argRef 0)] [] =
      .ok ([argNamedFirst], [("first", 0)]) ∧
    translateArguments [argNamedFirst] [("second", .argRef 0)] [] =
      .ok ([argNamedFirst], [("first", 0)]) := by
  constructor
  · rw [C10_argument_name_set_in_place.1 [argNoName] 0 argNoName "first"
      rfl rfl]
    rfl
  · exact C10_argument_name_set_in_place.2 [argNamedFirst] 0 argNamedFirst
      "first" "second" rfl rfl (by decide)

end NewGraphene
